import Mathlib

/-!
Verification of the `emailexecl` email-validation scripts.

The repository consists of five near-duplicate Python scripts
(`eemail.py`, `emailv8.py`, `emailv12.py`, `emailv13.py` and the unnamed
`eeemail 2.py`), each validating email addresses through four stages:
regex syntax check, MX-record lookup, SMTP connection/recipient probe,
and catch-all detection.  This file gives a shallow embedding of the
relevant functions of each script, with the network (DNS answers and
SMTP session outcomes) modelled as an explicit environment, and each
network call additionally recorded in an event trace so that retry
counts, backoff sleeps and stage ordering are observable.
-/

set_option maxRecDepth 4000

/-- Character class of the regex's local part `[a-zA-Z0-9_.+-]`. -/
def isLocalChar (c : Char) : Bool :=
  (c ≥ 'a' && c ≤ 'z') || (c ≥ 'A' && c ≤ 'Z') || (c ≥ '0' && c ≤ '9') ||
  c = '_' || c = '.' || c = '+' || c = '-'

/-- Character class of the regex's first domain label `[a-zA-Z0-9-]`. -/
def isLabelChar (c : Char) : Bool :=
  (c ≥ 'a' && c ≤ 'z') || (c ≥ 'A' && c ≤ 'Z') || (c ≥ '0' && c ≤ '9') || c = '-'

/-- Character class of the regex's domain tail `[a-zA-Z0-9-.]` (note: it
includes the dot itself). -/
def isTailChar (c : Char) : Bool :=
  (c ≥ 'a' && c ≤ 'z') || (c ≥ 'A' && c ≤ 'Z') || (c ≥ '0' && c ≤ '9') ||
  c = '-' || c = '.'

/-- Matcher for the domain part `[a-zA-Z0-9-]+\.[a-zA-Z0-9-.]+` of the
regex: a maximal nonempty run of label chars, then a literal dot, then a
nonempty run of tail chars. -/
def matchDomain (r : List Char) : Bool :=
  !(r.takeWhile isLabelChar).isEmpty &&
  ((r.dropWhile isLabelChar).head? == some '.') &&
  !(r.dropWhile isLabelChar).tail.isEmpty &&
  (r.dropWhile isLabelChar).tail.all isTailChar

/-- Core matcher for the anchored regex
`^[a-zA-Z0-9_.+-]+@[a-zA-Z0-9-]+\.[a-zA-Z0-9-.]+$` shared by all five
scripts (`EMAIL_REGEX`).  Since `@` is in no character class, the local
part is exactly the maximal local-char prefix; since `.` is not a label
char, the first label is exactly the maximal label-char run after `@`.
Greedy scanning is therefore equivalent to the regex's nondeterministic
semantics (`matchCore_iff` below). -/
def matchCore (s : List Char) : Bool :=
  !(s.takeWhile isLocalChar).isEmpty &&
  ((s.dropWhile isLocalChar).head? == some '@') &&
  matchDomain (s.dropWhile isLocalChar).tail

/-- Function `check_syntax` of every script: `re.match(EMAIL_REGEX, email) is not None`.
Python's `$` also matches just before a single trailing newline, so a
string ending in `'\n'` is accepted when the part before the newline
matches. -/
def check_syntax (email : String) : Bool :=
  matchCore email.data ||
  (match email.data.getLast? with
   | some c => c = '\n' && matchCore email.data.dropLast
   | none => false)

/-- Python's `s.split('@')`: the maximal chunks between occurrences of `'@'`
(splitting on every occurrence, keeping empty chunks). -/
def splitOnAt : List Char → List (List Char)
  | [] => [[]]
  | c :: cs =>
      if c = '@' then [] :: splitOnAt cs
      else
        match splitOnAt cs with
        | [] => [[c]]
        | g :: gs => (c :: g) :: gs

/-- Expression `email.split('@')[1]`, the domain extraction used by `validate_email`,
`check_connection` and `check_catch_all` in every script.  Out-of-range
indexing (fewer than two chunks) is modelled by the empty default; the
syntax check guarantees it never happens in the pipeline. -/
def domainOf (email : String) : String :=
  String.mk ((splitOnAt email.data).getD 1 [])

/-- Function `is_gmail_domain` of `eemail.py`, `emailv8.py` and `eeemail 2.py`:
`domain.lower() == 'gmail.com'`, with lowering applied character by
character. -/
def is_gmail_domain (domain : String) : Bool :=
  String.mk (domain.data.map Char.toLower) == "gmail.com"

/-- An MX record as the scripts use it: `mx_records[i].exchange` (rendered
to text) and its preference value. -/
structure MXRecord where
  exchange : String
  preference : Nat
  deriving DecidableEq, Repr

/-- Outcome of one `dns.resolver.resolve(domain, 'MX')` call.
`noAnswer`/`nxdomain` are the authoritative negatives
(`dns.resolver.NoAnswer`, `dns.resolver.NXDOMAIN`), `timeout` is
`dns.exception.Timeout`, and `err` is any other raised exception. -/
inductive DnsResult where
  | ok (records : List MXRecord)
  | noAnswer
  | nxdomain
  | timeout
  | err
  deriving DecidableEq, Repr

/-- Network events, recorded whenever a script performs a network call or
sleeps between retries.  `smtpHelo` is a connect-and-greet-only session
(the `check_connection` of `eemail.py`, `emailv8.py`, `eeemail 2.py`);
`smtpProbe` is a full session `connect; helo; MAIL FROM:<sender>;
RCPT TO:<rcptTo>`. -/
inductive Event where
  | dnsQuery (domain : String)
  | smtpHelo (host : String)
  | smtpProbe (host sender rcptTo : String)
  | sleep (seconds : Nat)
  deriving DecidableEq, Repr

/-- Number of SMTP sessions (of either kind) in a trace. -/
def countSmtp : List Event → Nat
  | [] => 0
  | Event.smtpHelo _ :: t => countSmtp t + 1
  | Event.smtpProbe _ _ _ :: t => countSmtp t + 1
  | _ :: t => countSmtp t

/-- Number of DNS queries in a trace. -/
def countDns : List Event → Nat
  | [] => 0
  | Event.dnsQuery _ :: t => countDns t + 1
  | _ :: t => countDns t

/-- Environment for the scripts without retry loops: the network's response
to each kind of call.  `helo h` tells whether a connect-and-greet session
to host `h` succeeds; `rcpt h s r` gives the RCPT reply code of a full
probe session (`none` means the session failed at some point — refused
connection, timeout, protocol error). -/
structure Env where
  dns : String → DnsResult
  helo : String → Bool
  rcpt : String → String → String → Option Nat

/-- Attempt-indexed environment for the scripts with retry loops
(`emailv13.py`, `eeemail 2.py`): the response may differ between retry
attempts. -/
structure REnv where
  dns : Nat → String → DnsResult
  helo : Nat → String → Bool
  rcpt : Nat → String → String → String → Option Nat

namespace eemail

/-- Function `check_mail_server` of `eemail.py`: resolves MX and returns `len > 0`;
catches only `NoAnswer`/`NXDOMAIN` (returning `False`), so a `Timeout`
or any other resolver exception propagates out (`Except.error`). -/
def check_mail_server (env : Env) (domain : String) :
    Except Unit Bool × List Event :=
  (match env.dns domain with
   | DnsResult.ok rs => Except.ok (decide (0 < rs.length))
   | DnsResult.noAnswer => Except.ok false
   | DnsResult.nxdomain => Except.ok false
   | DnsResult.timeout => Except.error ()
   | DnsResult.err => Except.error (),
   [Event.dnsQuery domain])

/-- Function `check_connection` of `eemail.py`: re-resolves MX, connects to
`mx_records[0].exchange` and sends HELO only; any exception (including
an empty record set's `IndexError`) yields `False`. -/
def check_connection (env : Env) (email : String) : Bool × List Event :=
  let domain := domainOf email
  match env.dns domain with
  | DnsResult.ok (r :: _) =>
      (env.helo r.exchange, [Event.dnsQuery domain, Event.smtpHelo r.exchange])
  | _ => (false, [Event.dnsQuery domain])

/-- Function `check_catch_all` of `eemail.py`: one full SMTP session against
`mx_records[0].exchange`; for the gmail special case the sender is
`test@gmail.com`, the probed recipient `fake-email@gmail.com` and the
result is `code != 550`; otherwise sender `test@example.com`, recipient
`'fake-email@' + domain` and result `code == 250`.  Any exception yields
`False`. -/
def check_catch_all (env : Env) (domain : String) : Bool × List Event :=
  match env.dns domain with
  | DnsResult.ok (r :: _) =>
      if is_gmail_domain domain then
        match env.rcpt r.exchange "test@gmail.com" "fake-email@gmail.com" with
        | some code =>
            (decide (code ≠ 550),
             [Event.dnsQuery domain,
              Event.smtpProbe r.exchange "test@gmail.com" "fake-email@gmail.com"])
        | none =>
            (false,
             [Event.dnsQuery domain,
              Event.smtpProbe r.exchange "test@gmail.com" "fake-email@gmail.com"])
      else
        match env.rcpt r.exchange "test@example.com" ("fake-email@" ++ domain) with
        | some code =>
            (decide (code = 250),
             [Event.dnsQuery domain,
              Event.smtpProbe r.exchange "test@example.com" ("fake-email@" ++ domain)])
        | none =>
            (false,
             [Event.dnsQuery domain,
              Event.smtpProbe r.exchange "test@example.com" ("fake-email@" ++ domain)])
  | _ => (false, [Event.dnsQuery domain])

/-- Function `validate_email` of `eemail.py`: syntax, then MX, then connection, then
catch-all, short-circuiting at the first failing stage.  The uncaught
resolver exception of `check_mail_server` propagates. -/
def validate_email (env : Env) (email : String) :
    Except Unit (Bool × String) × List Event :=
  if ! check_syntax email then (Except.ok (false, "Invalid syntax"), [])
  else
    let domain := domainOf email
    match check_mail_server env domain with
    | (Except.error e, t1) => (Except.error e, t1)
    | (Except.ok ms, t1) =>
      if !ms then (Except.ok (false, "No MX records found"), t1)
      else
        let (conn, t2) := check_connection env email
        if !conn then
          (Except.ok (false, "Cannot connect to mail server"), t1 ++ t2)
        else
          let (ca, t3) := check_catch_all env domain
          if ca then
            (Except.ok (false, "Domain has catch-all enabled"), t1 ++ t2 ++ t3)
          else (Except.ok (true, "Email is valid"), t1 ++ t2 ++ t3)

end eemail

namespace emailv8

/-- Function `check_catch_all` of `emailv8.py`: identical policy to `eemail.py`'s
(gmail special case `code != 550`, otherwise `code == 250`, any
exception `False`), with the session opened in a `with` block. -/
def check_catch_all (env : Env) (domain : String) : Bool × List Event :=
  match env.dns domain with
  | DnsResult.ok (r :: _) =>
      if is_gmail_domain domain then
        match env.rcpt r.exchange "test@gmail.com" "fake-email@gmail.com" with
        | some code =>
            (decide (code ≠ 550),
             [Event.dnsQuery domain,
              Event.smtpProbe r.exchange "test@gmail.com" "fake-email@gmail.com"])
        | none =>
            (false,
             [Event.dnsQuery domain,
              Event.smtpProbe r.exchange "test@gmail.com" "fake-email@gmail.com"])
      else
        match env.rcpt r.exchange "test@example.com" ("fake-email@" ++ domain) with
        | some code =>
            (decide (code = 250),
             [Event.dnsQuery domain,
              Event.smtpProbe r.exchange "test@example.com" ("fake-email@" ++ domain)])
        | none =>
            (false,
             [Event.dnsQuery domain,
              Event.smtpProbe r.exchange "test@example.com" ("fake-email@" ++ domain)])
  | _ => (false, [Event.dnsQuery domain])

end emailv8

namespace emailv12

/-- Function `check_mail_server` of `emailv12.py`: resolves MX, returns `len > 0`;
catches `NoAnswer`/`NXDOMAIN`/`Timeout` and, via a final
`except Exception`, every other exception, returning `False` — total. -/
def check_mail_server (env : Env) (domain : String) : Bool × List Event :=
  (match env.dns domain with
   | DnsResult.ok rs => decide (0 < rs.length)
   | _ => false,
   [Event.dnsQuery domain])

/-- Function `check_connection` of `emailv12.py`: re-resolves MX, opens a full session
to `mx_records[0].exchange` with sender `test@example.com` and
`RCPT TO:` the real address; returns `True` iff the RCPT code is 250;
any exception yields `False`. -/
def check_connection (env : Env) (email : String) : Bool × List Event :=
  let domain := domainOf email
  match env.dns domain with
  | DnsResult.ok (r :: _) =>
      (match env.rcpt r.exchange "test@example.com" email with
       | some code => decide (code = 250)
       | none => false,
       [Event.dnsQuery domain, Event.smtpProbe r.exchange "test@example.com" email])
  | _ => (false, [Event.dnsQuery domain])

/-- Function `check_catch_all` of `emailv12.py`: no gmail special case; one session
with sender `test@example.com` probing `'nonexistent@' + domain`;
returns `code == 250`, any exception `False`. -/
def check_catch_all (env : Env) (domain : String) : Bool × List Event :=
  match env.dns domain with
  | DnsResult.ok (r :: _) =>
      (match env.rcpt r.exchange "test@example.com" ("nonexistent@" ++ domain) with
       | some code => decide (code = 250)
       | none => false,
       [Event.dnsQuery domain,
        Event.smtpProbe r.exchange "test@example.com" ("nonexistent@" ++ domain)])
  | _ => (false, [Event.dnsQuery domain])

/-- Function `validate_email` of `emailv12.py`: syntax, then MX, then — unlike the
other variants — `check_catch_all` BEFORE `check_connection`, with a
catch-all report short-circuiting to the status `"Valid"` (the source
comments `# Consider catch-all domains as valid`). -/
def validate_email (env : Env) (email : String) :
    (String × String) × List Event :=
  if ! check_syntax email then ((email, "Invalid syntax"), [])
  else
    let domain := domainOf email
    let (ms, t1) := check_mail_server env domain
    if !ms then ((email, "No MX records found"), t1)
    else
      let (ca, t2) := check_catch_all env domain
      if ca then ((email, "Valid"), t1 ++ t2)
      else
        let (conn, t3) := check_connection env email
        if !conn then ((email, "Cannot connect to mail server"), t1 ++ t2 ++ t3)
        else ((email, "Valid"), t1 ++ t2 ++ t3)

/-- Function `validate_emails` of `emailv12.py`: submits one `validate_email` future
per input address to a thread pool and appends results in completion
order.  The scheduler's completion order is modelled as the index list
`order`; any concurrency level produces some such order. -/
def validate_emails (env : Env) (emails : List String)
    (order : List (Fin emails.length)) : List (String × String) :=
  order.map fun i => (validate_email env (emails.get i)).1

end emailv12

namespace emailv13

/-- Body of the `retry_connection` decorator of `emailv13.py`: up to 3 attempts of
`f`; a truthy result or the last attempt returns immediately, otherwise
`sleep(2 ** attempt)` and retry.  `rem` is the number of attempts left
(`attempt == retries - 1` iff `rem = 1`). -/
def retryLoop (f : Nat → Bool × List Event) : Nat → Nat → Bool × List Event
  | _, 0 => (false, [])
  | attempt, rem + 1 =>
      let (r, t) := f attempt
      if r || rem = 0 then (r, t)
      else
        let (r2, t2) := retryLoop f (attempt + 1) rem
        (r2, t ++ Event.sleep (2 ^ attempt) :: t2)

/-- Decorator `@retry_connection` applied to a function: run the 3-attempt loop
starting at attempt 0. -/
def retry_connection (f : Nat → Bool × List Event) : Bool × List Event :=
  retryLoop f 0 3

/-- One underlying attempt of `emailv13.py` `check_mail_server`: resolves
MX with `lifetime=10` and returns `len > 0`; the bare `except Exception`
turns every failure — authoritative negatives included — into `False`. -/
def check_mail_server_once (renv : REnv) (domain : String) (attempt : Nat) :
    Bool × List Event :=
  (match renv.dns attempt domain with
   | DnsResult.ok rs => decide (0 < rs.length)
   | _ => false,
   [Event.dnsQuery domain])

/-- Function `check_mail_server` of `emailv13.py` as called: the decorated function,
i.e. the retry loop around the underlying attempt. -/
def check_mail_server (renv : REnv) (domain : String) : Bool × List Event :=
  retry_connection (check_mail_server_once renv domain)

/-- One underlying attempt of `emailv13.py` `check_connection`: re-resolves
MX, opens a full session to `mx_records[0].exchange` with sender
`your-email@example.com` and `RCPT TO:` the real address; `True` iff the
code is 250 or 251; any exception falls through to `False`. -/
def check_connection_once (renv : REnv) (email : String) (attempt : Nat) :
    Bool × List Event :=
  let domain := domainOf email
  match renv.dns attempt domain with
  | DnsResult.ok (r :: _) =>
      (match renv.rcpt attempt r.exchange "your-email@example.com" email with
       | some code => decide (code = 250 ∨ code = 251)
       | none => false,
       [Event.dnsQuery domain,
        Event.smtpProbe r.exchange "your-email@example.com" email])
  | _ => (false, [Event.dnsQuery domain])

/-- Function `check_connection` of `emailv13.py` as called: the decorated function,
so a failed SMTP probe is itself retried up to 3 times. -/
def check_connection (renv : REnv) (email : String) : Bool × List Event :=
  retry_connection (check_connection_once renv email)

/-- Function `validate_email` of `emailv13.py`: syntax, then (retried) MX check, then
(retried) connection probe; no catch-all stage in this variant. -/
def validate_email (renv : REnv) (email : String) :
    (String × String) × List Event :=
  if ! check_syntax email then ((email, "Invalid syntax"), [])
  else
    let domain := domainOf email
    let (ms, t1) := check_mail_server renv domain
    if !ms then ((email, "No MX records found"), t1)
    else
      let (conn, t2) := check_connection renv email
      if !conn then ((email, "Cannot connect to mail server"), t1 ++ t2)
      else ((email, "Valid"), t1 ++ t2)

/-- Function `validate_emails` of `emailv13.py`: thread pool with results appended in
completion order, modelled as in `emailv12`. -/
def validate_emails (renv : REnv) (emails : List String)
    (order : List (Fin emails.length)) : List (String × String) :=
  order.map fun i => (validate_email renv (emails.get i)).1

end emailv13

namespace part000

/-- Retry loop body of `check_mail_server` of `eeemail 2.py`, with `attempt` the
0-based attempt index and `rem` the remaining iterations of
`while retry_count < max_retries`.  An `ok` answer returns `len > 0`;
`NoAnswer`/`NXDOMAIN` return `False` immediately; a `Timeout` increments
the counter and loops again with no sleep in between; any other
exception is uncaught and propagates.  Exhausting the loop returns
`False`. -/
def check_mail_server_go (renv : REnv) (domain : String) :
    Nat → Nat → Except Unit Bool × List Event
  | _, 0 => (Except.ok false, [])
  | attempt, rem + 1 =>
      match renv.dns attempt domain with
      | DnsResult.ok rs =>
          (Except.ok (decide (0 < rs.length)), [Event.dnsQuery domain])
      | DnsResult.noAnswer => (Except.ok false, [Event.dnsQuery domain])
      | DnsResult.nxdomain => (Except.ok false, [Event.dnsQuery domain])
      | DnsResult.timeout =>
          let (r, t) := check_mail_server_go renv domain (attempt + 1) rem
          (r, Event.dnsQuery domain :: t)
      | DnsResult.err => (Except.error (), [Event.dnsQuery domain])

/-- Function `check_mail_server` of `eeemail 2.py`: the retry loop with
`max_retries = 3`. -/
def check_mail_server (renv : REnv) (domain : String) :
    Except Unit Bool × List Event :=
  check_mail_server_go renv domain 0 3

/-- Retry loop body of `check_catch_all` of `eeemail 2.py`: each iteration
resolves MX and, on success, runs one full SMTP session against
`mx_records[0].exchange` with the same gmail/non-gmail policy as
`eemail.py` (`code != 550` for gmail, `code == 250` otherwise).  Only a
DNS `Timeout` retries; every other exception — authoritative negatives,
an empty record set's `IndexError`, and any SMTP failure — hits the
`except Exception` clause and returns `False`.  Exhausting the loop
returns `False`. -/
def check_catch_all_go (renv : REnv) (domain : String) :
    Nat → Nat → Bool × List Event
  | _, 0 => (false, [])
  | attempt, rem + 1 =>
      match renv.dns attempt domain with
      | DnsResult.ok (r :: _) =>
          if is_gmail_domain domain then
            match renv.rcpt attempt r.exchange "test@gmail.com" "fake-email@gmail.com" with
            | some code =>
                (decide (code ≠ 550),
                 [Event.dnsQuery domain,
                  Event.smtpProbe r.exchange "test@gmail.com" "fake-email@gmail.com"])
            | none =>
                (false,
                 [Event.dnsQuery domain,
                  Event.smtpProbe r.exchange "test@gmail.com" "fake-email@gmail.com"])
          else
            match renv.rcpt attempt r.exchange "test@example.com" ("fake-email@" ++ domain) with
            | some code =>
                (decide (code = 250),
                 [Event.dnsQuery domain,
                  Event.smtpProbe r.exchange "test@example.com" ("fake-email@" ++ domain)])
            | none =>
                (false,
                 [Event.dnsQuery domain,
                  Event.smtpProbe r.exchange "test@example.com" ("fake-email@" ++ domain)])
      | DnsResult.timeout =>
          let (r, t) := check_catch_all_go renv domain (attempt + 1) rem
          (r, Event.dnsQuery domain :: t)
      | _ => (false, [Event.dnsQuery domain])

/-- Function `check_catch_all` of `eeemail 2.py`: the retry loop with
`max_retries = 3`. -/
def check_catch_all (renv : REnv) (domain : String) : Bool × List Event :=
  check_catch_all_go renv domain 0 3

end part000

/-- Python-style split on `'.'`, used to state claim C4's reading of the
domain ("labels drawn from `[A-Za-z0-9-]+` separated by `.`"). -/
def splitOnDot : List Char → List (List Char)
  | [] => [[]]
  | c :: cs =>
      if c = '.' then [] :: splitOnDot cs
      else
        match splitOnDot cs with
        | [] => [[c]]
        | g :: gs => (c :: g) :: gs

/-- Claim C4's characterization of the syntax check, following the
claim's words: a local part of characters `[A-Za-z0-9_.+-]+`, a single
`@`, and a domain made of labels drawn from `[A-Za-z0-9-]+` separated by
`.`, anchored at both ends. -/
def claimSyntaxValid (email : String) : Bool :=
  match splitOnAt email.data with
  | [l, d] =>
      !l.isEmpty && l.all isLocalChar &&
      decide (2 ≤ (splitOnDot d).length) &&
      (splitOnDot d).all fun p => !p.isEmpty && p.all isLabelChar
  | _ => false

/-- Whether a record list is sorted ascending by preference. -/
def sortedByPref : List MXRecord → Bool
  | [] => true
  | [_] => true
  | a :: b :: t => decide (a.preference ≤ b.preference) && sortedByPref (b :: t)

/-- A concrete environment: every domain resolves to the single MX record
`mx.b.c` (preference 10), and every SMTP session answers RCPT with 250. -/
def envAccept : Env :=
  { dns := fun _ => DnsResult.ok [⟨"mx.b.c", 10⟩]
    helo := fun _ => true
    rcpt := fun _ _ _ => some 250 }

/-- A concrete environment whose MX answer is not sorted by preference. -/
def envUnsorted : Env :=
  { dns := fun _ => DnsResult.ok [⟨"hostB", 20⟩, ⟨"hostA", 10⟩]
    helo := fun _ => true
    rcpt := fun _ _ _ => some 250 }

/-- A concrete retry-environment: every DNS query answers NXDOMAIN. -/
def renvNx : REnv :=
  { dns := fun _ _ => DnsResult.nxdomain
    helo := fun _ _ => true
    rcpt := fun _ _ _ _ => none }

/-- A concrete retry-environment: DNS always succeeds with one record but
every SMTP probe session fails. -/
def renvSmtpFail : REnv :=
  { dns := fun _ _ => DnsResult.ok [⟨"mx.b.c", 10⟩]
    helo := fun _ _ => true
    rcpt := fun _ _ _ _ => none }

/-- A two-address batch used to witness the batch-runner theorem. -/
def emailsW : List String := ["a@b.c", "bad"]

/-- A completion order for `emailsW` in which the second address finishes
first. -/
def ordW : List (Fin emailsW.length) := [⟨1, by decide⟩, ⟨0, by decide⟩]

/-- The nondeterministic semantics of the anchored regex
`^[a-zA-Z0-9_.+-]+@[a-zA-Z0-9-]+\.[a-zA-Z0-9-.]+$`: some decomposition
into a nonempty local part, `@`, a nonempty first label, the literal
dot, and a nonempty tail. -/
def RegexSem (s : List Char) : Prop :=
  ∃ l d1 t, s = l ++ '@' :: (d1 ++ '.' :: t) ∧
    l ≠ [] ∧ l.all isLocalChar ∧ d1 ≠ [] ∧ d1.all isLabelChar ∧
    t ≠ [] ∧ t.all isTailChar

theorem takeWhile_all_append {α : Type} (p : α → Bool) {l : List α}
    (r : List α) {c : α} (hl : ∀ x ∈ l, p x = true) (hc : p c = false) :
    (l ++ c :: r).takeWhile p = l := by
  induction l with
  | nil => simp [List.takeWhile_cons, hc]
  | cons a as ih =>
      have ha : p a = true := hl a (List.mem_cons_self a as)
      simp only [List.cons_append, List.takeWhile_cons, ha, if_true]
      rw [ih fun x hx => hl x (List.mem_cons_of_mem a hx)]

theorem dropWhile_all_append {α : Type} (p : α → Bool) {l : List α}
    (r : List α) {c : α} (hl : ∀ x ∈ l, p x = true) (hc : p c = false) :
    (l ++ c :: r).dropWhile p = c :: r := by
  induction l with
  | nil => simp [List.dropWhile_cons, hc]
  | cons a as ih =>
      have ha : p a = true := hl a (List.mem_cons_self a as)
      simp only [List.cons_append, List.dropWhile_cons, ha, if_true]
      exact ih fun x hx => hl x (List.mem_cons_of_mem a hx)

theorem matchDomain_iff (r : List Char) :
    matchDomain r = true ↔
    ∃ d1 t, r = d1 ++ '.' :: t ∧ d1 ≠ [] ∧ d1.all isLabelChar ∧
      t ≠ [] ∧ t.all isTailChar := by
  constructor
  · intro h
    simp only [matchDomain, Bool.and_eq_true, beq_iff_eq, Bool.not_eq_true'] at h
    obtain ⟨⟨⟨h1, h2⟩, h3⟩, h4⟩ := h
    cases hd : r.dropWhile isLabelChar with
    | nil => rw [hd] at h2; simp at h2
    | cons c tl =>
        rw [hd] at h2 h3 h4
        simp only [List.head?_cons, Option.some.injEq] at h2
        simp only [List.tail_cons] at h3 h4
        refine ⟨r.takeWhile isLabelChar, tl, ?_, ?_, ?_, ?_, h4⟩
        · conv_lhs => rw [← List.takeWhile_append_dropWhile (p := isLabelChar) (l := r)]
          rw [hd, h2]
        · intro hnil
          rw [hnil] at h1
          exact absurd h1 (by decide)
        · exact List.all_eq_true.mpr fun x hx => List.mem_takeWhile_imp hx
        · intro hnil
          rw [hnil] at h3
          exact absurd h3 (by decide)
  · rintro ⟨d1, t, rfl, hne, hall, htne, htall⟩
    have h1 : (d1 ++ '.' :: t).takeWhile isLabelChar = d1 :=
      takeWhile_all_append _ _ (fun x hx => List.all_eq_true.mp hall x hx) (by decide)
    have h2 : (d1 ++ '.' :: t).dropWhile isLabelChar = '.' :: t :=
      dropWhile_all_append _ _ (fun x hx => List.all_eq_true.mp hall x hx) (by decide)
    simp [matchDomain, h1, h2, hne, htne, htall, List.isEmpty_iff]

/-- Greedy scanning is equivalent to the regex's nondeterministic
semantics. -/
theorem matchCore_iff (s : List Char) : matchCore s = true ↔ RegexSem s := by
  constructor
  · intro h
    simp only [matchCore, Bool.and_eq_true, beq_iff_eq, Bool.not_eq_true'] at h
    obtain ⟨⟨h1, h2⟩, h3⟩ := h
    cases hd : s.dropWhile isLocalChar with
    | nil => rw [hd] at h2; simp at h2
    | cons c rest =>
        rw [hd] at h2 h3
        simp only [List.head?_cons, Option.some.injEq] at h2
        simp only [List.tail_cons] at h3
        obtain ⟨d1, t, hrest, hd1ne, hd1all, htne, htall⟩ :=
          (matchDomain_iff rest).mp h3
        refine ⟨s.takeWhile isLocalChar, d1, t, ?_, ?_, ?_, hd1ne, hd1all, htne, htall⟩
        · conv_lhs => rw [← List.takeWhile_append_dropWhile (p := isLocalChar) (l := s)]
          rw [hd, h2, hrest]
        · intro hnil
          rw [hnil] at h1
          exact absurd h1 (by decide)
        · exact List.all_eq_true.mpr fun x hx => List.mem_takeWhile_imp hx
  · rintro ⟨l, d1, t, rfl, hne, hall, hd1ne, hd1all, htne, htall⟩
    have h1 : (l ++ '@' :: (d1 ++ '.' :: t)).takeWhile isLocalChar = l :=
      takeWhile_all_append _ _ (fun x hx => List.all_eq_true.mp hall x hx) (by decide)
    have h2 : (l ++ '@' :: (d1 ++ '.' :: t)).dropWhile isLocalChar =
        '@' :: (d1 ++ '.' :: t) :=
      dropWhile_all_append _ _ (fun x hx => List.all_eq_true.mp hall x hx) (by decide)
    have h3 : matchDomain (d1 ++ '.' :: t) = true :=
      (matchDomain_iff _).mpr ⟨d1, t, rfl, hd1ne, hd1all, htne, htall⟩
    simp [matchCore, h1, h2, h3, hne, List.isEmpty_iff]

theorem splitOnAt_no_at {xs : List Char} (h : ∀ c ∈ xs, c ≠ '@') :
    splitOnAt xs = [xs] := by
  induction xs with
  | nil => rfl
  | cons c cs ih =>
      have hc : ¬(c = '@') := h c (List.mem_cons_self c cs)
      rw [splitOnAt, if_neg hc, ih fun x hx => h x (List.mem_cons_of_mem c hx)]

theorem splitOnAt_append {l : List Char} (r : List Char)
    (h : ∀ c ∈ l, c ≠ '@') :
    splitOnAt (l ++ '@' :: r) = l :: splitOnAt r := by
  induction l with
  | nil => simp [splitOnAt]
  | cons c cs ih =>
      have hc : ¬(c = '@') := h c (List.mem_cons_self c cs)
      rw [List.cons_append, splitOnAt, if_neg hc,
        ih fun x hx => h x (List.mem_cons_of_mem c hx)]

/-- Characters of the regex's classes are never `@`. -/
theorem ne_at_of_isLocalChar {c : Char} (h : isLocalChar c = true) : c ≠ '@' := by
  intro hc; rw [hc] at h; exact absurd h (by decide)

theorem ne_at_of_isLabelChar {c : Char} (h : isLabelChar c = true) : c ≠ '@' := by
  intro hc; rw [hc] at h; exact absurd h (by decide)

theorem ne_at_of_isTailChar {c : Char} (h : isTailChar c = true) : c ≠ '@' := by
  intro hc; rw [hc] at h; exact absurd h (by decide)

/-- Every string accepted by `check_syntax` splits as
`local ++ '@' :: domain` where neither side contains a further `@`. -/
theorem check_syntax_decomp {email : String} (h : check_syntax email = true) :
    ∃ l d : List Char, email.data = l ++ '@' :: d ∧
      (∀ c ∈ l, c ≠ '@') ∧ (∀ c ∈ d, c ≠ '@') := by
  have hcases : matchCore email.data = true ∨
      ∃ u, email.data = u ++ ['\n'] ∧ matchCore u = true := by
    unfold check_syntax at h
    cases hm : matchCore email.data with
    | true => exact Or.inl rfl
    | false =>
        rw [hm] at h
        rcases List.eq_nil_or_concat email.data with hnil | ⟨u, a, hu⟩
        · rw [hnil] at h; exact absurd h (by decide)
        · rw [List.concat_eq_append] at hu
          rw [hu] at h
          simp only [List.getLast?_concat, List.dropLast_concat,
            Bool.false_or, Bool.and_eq_true, decide_eq_true_eq] at h
          exact Or.inr ⟨u, by rw [hu, h.1], h.2⟩
  have base : ∀ s : List Char, matchCore s = true →
      ∃ l d : List Char, s = l ++ '@' :: d ∧
        (∀ c ∈ l, c ≠ '@') ∧ (∀ c ∈ d, c ≠ '@') := by
    intro s hs
    obtain ⟨l, d1, t, rfl, -, hall, -, hd1all, -, htall⟩ := (matchCore_iff s).mp hs
    refine ⟨l, d1 ++ '.' :: t, rfl,
      fun c hc => ne_at_of_isLocalChar (List.all_eq_true.mp hall c hc), ?_⟩
    intro c hc
    rcases List.mem_append.mp hc with hc1 | hc2
    · exact ne_at_of_isLabelChar (List.all_eq_true.mp hd1all c hc1)
    · rcases List.mem_cons.mp hc2 with rfl | hc3
      · decide
      · exact ne_at_of_isTailChar (List.all_eq_true.mp htall c hc3)
  rcases hcases with hm | ⟨u, hu, hm⟩
  · exact base _ hm
  · obtain ⟨l, d, hsplit, hl, hd⟩ := base u hm
    refine ⟨l, d ++ ['\n'], by rw [hu, hsplit]; simp, hl, ?_⟩
    intro c hc
    rcases List.mem_append.mp hc with hc1 | hc2
    · exact hd c hc1
    · rcases List.mem_cons.mp hc2 with rfl | hc3
      · decide
      · exact absurd hc3 (List.not_mem_nil c)

/-- Full characterization of `check_syntax`: the regex semantics on the
string itself, or — because Python's `$` also matches just before a
trailing newline — on the string minus a final `'\n'`. -/
theorem check_syntax_iff (email : String) :
    check_syntax email = true ↔
    RegexSem email.data ∨ ∃ u, email.data = u ++ ['\n'] ∧ RegexSem u := by
  constructor
  · intro h
    unfold check_syntax at h
    cases hm : matchCore email.data with
    | true => exact Or.inl ((matchCore_iff _).mp hm)
    | false =>
        rw [hm] at h
        rcases List.eq_nil_or_concat email.data with hnil | ⟨u, a, hu⟩
        · rw [hnil] at h; exact absurd h (by decide)
        · rw [List.concat_eq_append] at hu
          rw [hu] at h
          simp only [List.getLast?_concat, List.dropLast_concat,
            Bool.false_or, Bool.and_eq_true, decide_eq_true_eq] at h
          exact Or.inr ⟨u, by rw [hu, h.1], (matchCore_iff _).mp h.2⟩
  · intro h
    unfold check_syntax
    rcases h with h | ⟨u, hu, h⟩
    · rw [(matchCore_iff _).mpr h]; rfl
    · rw [hu]
      simp [List.getLast?_concat, List.dropLast_concat, (matchCore_iff u).mpr h]

/-- C10: every string accepted by the syntax check contains exactly one
`'@'` (the accepted character classes on both sides exclude `'@'`), so
`email.split('@')` has exactly two chunks, `[1]` never fails and is the
complete suffix after the `'@'` — and that suffix is exactly the domain
the pipeline's first DNS query (and hence the SMTP stages) uses. -/
theorem syntax_accepted_single_at (email : String)
    (h : check_syntax email = true) :
    email.data.count '@' = 1 ∧
    (splitOnAt email.data).length = 2 ∧
    ∃ l d : List Char, email.data = l ++ '@' :: d ∧
      splitOnAt email.data = [l, d] ∧ domainOf email = String.mk d ∧
      ∀ env : Env, ((emailv12.validate_email env email).2).head? =
        some (Event.dnsQuery (domainOf email)) := by
  obtain ⟨l, d, hsplit, hl, hd⟩ := check_syntax_decomp h
  have hspl : splitOnAt email.data = [l, d] := by
    rw [hsplit, splitOnAt_append _ hl, splitOnAt_no_at hd]
  have hcount : email.data.count '@' = 1 := by
    rw [hsplit, List.count_append, List.count_cons_self,
      List.count_eq_zero.mpr fun hm => hl '@' hm rfl,
      List.count_eq_zero.mpr fun hm => hd '@' hm rfl]
  have hdom : domainOf email = String.mk d := by
    rw [domainOf, hspl]; rfl
  refine ⟨hcount, by rw [hspl]; rfl, l, d, hsplit, hspl, hdom, ?_⟩
  intro env
  unfold emailv12.validate_email emailv12.check_mail_server
    emailv12.check_catch_all emailv12.check_connection
  rw [h]
  simp only [Bool.not_true, Bool.false_eq_true, if_false]
  cases henv : env.dns (domainOf email) with
  | ok rs =>
      cases rs with
      | nil => simp [henv]
      | cons r rest =>
          simp only [henv]
          split <;> (try split) <;> (try split) <;> simp
  | noAnswer => simp [henv]
  | nxdomain => simp [henv]
  | timeout => simp [henv]
  | err => simp [henv]

/-- Witness for `syntax_accepted_single_at` at the concrete accepted
address `a@b.c`. -/
theorem syntax_accepted_single_at_witness :
    check_syntax "a@b.c" = true ∧
    (("a@b.c" : String).data.count '@' = 1 ∧
     (splitOnAt ("a@b.c" : String).data).length = 2 ∧
     ∃ l d : List Char, ("a@b.c" : String).data = l ++ '@' :: d ∧
       splitOnAt ("a@b.c" : String).data = [l, d] ∧
       domainOf "a@b.c" = String.mk d ∧
       ∀ env : Env, ((emailv12.validate_email env "a@b.c").2).head? =
         some (Event.dnsQuery (domainOf "a@b.c"))) :=
  ⟨by decide, syntax_accepted_single_at "a@b.c" (by decide)⟩

/-- C4 counterexample: the code's regex accepts `a@b..` — the character
class of the domain tail contains the dot itself, so the domain is NOT
made of nonempty labels separated by single dots as the claim states
(`b..` has two empty labels). -/
theorem check_syntax_claim_counterexample :
    check_syntax "a@b.." = true ∧ claimSyntaxValid "a@b.." = false := by decide

/-- C4 (amended): the four cited examples behave as claimed, but the
general shape accepted by `check_syntax` is: a nonempty local part of
`[A-Za-z0-9_.+-]`, one `@`, one nonempty dot-free label of
`[A-Za-z0-9-]`, a dot, and a nonempty tail of `[A-Za-z0-9-.]` — the tail
may contain consecutive or trailing dots; a single trailing newline is
also tolerated (Python's `$`). -/
theorem check_syntax_characterization :
    check_syntax "user.name+tag@sub.example.com" = true ∧
    check_syntax "user@@example.com" = false ∧
    check_syntax "noatsymbol.com" = false ∧
    check_syntax "trailing.dot@example." = false ∧
    ∀ email : String, check_syntax email = true ↔
      RegexSem email.data ∨ ∃ u, email.data = u ++ ['\n'] ∧ RegexSem u :=
  ⟨by decide, by decide, by decide, by decide, check_syntax_iff⟩

/-- C9: an address rejected by the syntax check produces the
`Invalid syntax` outcome with an empty event trace — no DNS query and no
SMTP session — in `eemail.py`, `emailv13.py` and `emailv12.py`. -/
theorem invalid_syntax_no_network (env : Env) (renv : REnv) (email : String)
    (h : check_syntax email = false) :
    eemail.validate_email env email = (Except.ok (false, "Invalid syntax"), []) ∧
    emailv13.validate_email renv email = ((email, "Invalid syntax"), []) ∧
    emailv12.validate_email env email = ((email, "Invalid syntax"), []) := by
  refine ⟨?_, ?_, ?_⟩ <;>
    simp [eemail.validate_email, emailv13.validate_email,
      emailv12.validate_email, h]

/-- Witness for `invalid_syntax_no_network` at the rejected string
`bad`. -/
theorem invalid_syntax_no_network_witness :
    check_syntax "bad" = false ∧
    (eemail.validate_email envAccept "bad" =
       (Except.ok (false, "Invalid syntax"), []) ∧
     emailv13.validate_email renvNx "bad" = (("bad", "Invalid syntax"), []) ∧
     emailv12.validate_email envAccept "bad" = (("bad", "Invalid syntax"), [])) :=
  ⟨by decide, invalid_syntax_no_network envAccept renvNx "bad" (by decide)⟩

/-- C2 counterexample: for `gmail.com` the code returns `code != 550`, so
a non-550 reply (here 250) makes `check_catch_all` return `true` —
the claim says any non-550 reply yields `false`. -/
theorem catchall_gmail_counterexample :
    envAccept.rcpt "mx.b.c" "test@gmail.com" "fake-email@gmail.com" = some 250 ∧
    (250 : Nat) ≠ 550 ∧
    (emailv8.check_catch_all envAccept "gmail.com").1 = true := by
  refine ⟨rfl, by decide, by decide⟩

/-- C2 (amended): for `gmail.com`, `check_catch_all` returns `true`
exactly when the synthetic-recipient probe yields a reply code other
than 550 (so `false` exactly on a 550 reply), and `false` when the probe
fails. -/
theorem catchall_gmail (env : Env) (r : MXRecord) (rs : List MXRecord)
    (hdns : env.dns "gmail.com" = DnsResult.ok (r :: rs)) :
    (∀ c, env.rcpt r.exchange "test@gmail.com" "fake-email@gmail.com" = some c →
      ((emailv8.check_catch_all env "gmail.com").1 = true ↔ c ≠ 550)) ∧
    (env.rcpt r.exchange "test@gmail.com" "fake-email@gmail.com" = none →
      (emailv8.check_catch_all env "gmail.com").1 = false) := by
  constructor
  · intro c hc
    simp [emailv8.check_catch_all, hdns, hc, is_gmail_domain]
  · intro hc
    simp [emailv8.check_catch_all, hdns, hc, is_gmail_domain]

/-- Witness for `catchall_gmail`: with one MX record and a 250 reply to
the synthetic recipient, the gmail catch-all verdict is `true`. -/
theorem catchall_gmail_witness :
    envAccept.dns "gmail.com" = DnsResult.ok [⟨"mx.b.c", 10⟩] ∧
    envAccept.rcpt "mx.b.c" "test@gmail.com" "fake-email@gmail.com" = some 250 ∧
    ((emailv8.check_catch_all envAccept "gmail.com").1 = true ↔ (250 : Nat) ≠ 550) :=
  ⟨rfl, rfl,
   (catchall_gmail envAccept ⟨"mx.b.c", 10⟩ [] rfl).1 250 rfl⟩

/-- C3: for every non-gmail domain, the catch-all verdict is `true`
exactly when the synthetic-recipient probe yields RCPT code 250, and
`false` on every other code and on every probe failure; in `eeemail 2.py`
a DNS timeout is retried (up to 3 attempts) before the single probe. -/
theorem catchall_non_gmail (domain : String)
    (hg : is_gmail_domain domain = false) :
    (∀ env : Env,
      ((emailv8.check_catch_all env domain).1 = true ↔
        ∃ r rs, env.dns domain = DnsResult.ok (r :: rs) ∧
          env.rcpt r.exchange "test@example.com" ("fake-email@" ++ domain) =
            some 250)) ∧
    (∀ env : Env,
      ((emailv12.check_catch_all env domain).1 = true ↔
        ∃ r rs, env.dns domain = DnsResult.ok (r :: rs) ∧
          env.rcpt r.exchange "test@example.com" ("nonexistent@" ++ domain) =
            some 250)) ∧
    (∀ renv : REnv,
      ((part000.check_catch_all renv domain).1 = true ↔
        ((∃ r rs, renv.dns 0 domain = DnsResult.ok (r :: rs) ∧
            renv.rcpt 0 r.exchange "test@example.com" ("fake-email@" ++ domain) =
              some 250) ∨
         (renv.dns 0 domain = DnsResult.timeout ∧
          ∃ r rs, renv.dns 1 domain = DnsResult.ok (r :: rs) ∧
            renv.rcpt 1 r.exchange "test@example.com" ("fake-email@" ++ domain) =
              some 250) ∨
         (renv.dns 0 domain = DnsResult.timeout ∧
          renv.dns 1 domain = DnsResult.timeout ∧
          ∃ r rs, renv.dns 2 domain = DnsResult.ok (r :: rs) ∧
            renv.rcpt 2 r.exchange "test@example.com" ("fake-email@" ++ domain) =
              some 250)))) := by
  refine ⟨?_, ?_, ?_⟩
  · intro env
    cases hd : env.dns domain with
    | ok rs =>
        cases rs with
        | nil => simp [emailv8.check_catch_all, hd]
        | cons r rest =>
            cases hrc : env.rcpt r.exchange "test@example.com"
                ("fake-email@" ++ domain) with
            | none => simp [emailv8.check_catch_all, hd, hg, hrc]
            | some c => simp [emailv8.check_catch_all, hd, hg, hrc]
    | noAnswer => simp [emailv8.check_catch_all, hd]
    | nxdomain => simp [emailv8.check_catch_all, hd]
    | timeout => simp [emailv8.check_catch_all, hd]
    | err => simp [emailv8.check_catch_all, hd]
  · intro env
    cases hd : env.dns domain with
    | ok rs =>
        cases rs with
        | nil => simp [emailv12.check_catch_all, hd]
        | cons r rest =>
            cases hrc : env.rcpt r.exchange "test@example.com"
                ("nonexistent@" ++ domain) with
            | none => simp [emailv12.check_catch_all, hd, hrc]
            | some c => simp [emailv12.check_catch_all, hd, hrc]
    | noAnswer => simp [emailv12.check_catch_all, hd]
    | nxdomain => simp [emailv12.check_catch_all, hd]
    | timeout => simp [emailv12.check_catch_all, hd]
    | err => simp [emailv12.check_catch_all, hd]
  · intro renv
    unfold part000.check_catch_all
    cases h0 : renv.dns 0 domain with
    | ok rs =>
        cases rs with
        | nil => simp [part000.check_catch_all_go, h0]
        | cons r rest =>
            cases hrc : renv.rcpt 0 r.exchange "test@example.com"
                ("fake-email@" ++ domain) with
            | none => simp [part000.check_catch_all_go, h0, hg, hrc]
            | some c => simp [part000.check_catch_all_go, h0, hg, hrc]
    | noAnswer => simp [part000.check_catch_all_go, h0]
    | nxdomain => simp [part000.check_catch_all_go, h0]
    | err => simp [part000.check_catch_all_go, h0]
    | timeout =>
        cases h1 : renv.dns 1 domain with
        | ok rs =>
            cases rs with
            | nil => simp [part000.check_catch_all_go, h0, h1]
            | cons r rest =>
                cases hrc : renv.rcpt 1 r.exchange "test@example.com"
                    ("fake-email@" ++ domain) with
                | none => simp [part000.check_catch_all_go, h0, h1, hg, hrc]
                | some c => simp [part000.check_catch_all_go, h0, h1, hg, hrc]
        | noAnswer => simp [part000.check_catch_all_go, h0, h1]
        | nxdomain => simp [part000.check_catch_all_go, h0, h1]
        | err => simp [part000.check_catch_all_go, h0, h1]
        | timeout =>
            cases h2 : renv.dns 2 domain with
            | ok rs =>
                cases rs with
                | nil => simp [part000.check_catch_all_go, h0, h1, h2]
                | cons r rest =>
                    cases hrc : renv.rcpt 2 r.exchange "test@example.com"
                        ("fake-email@" ++ domain) with
                    | none =>
                        simp [part000.check_catch_all_go, h0, h1, h2, hg, hrc]
                    | some c =>
                        simp [part000.check_catch_all_go, h0, h1, h2, hg, hrc]
            | noAnswer => simp [part000.check_catch_all_go, h0, h1, h2]
            | nxdomain => simp [part000.check_catch_all_go, h0, h1, h2]
            | err => simp [part000.check_catch_all_go, h0, h1, h2]
            | timeout => simp [part000.check_catch_all_go, h0, h1, h2]

/-- Witness for `catchall_non_gmail` at the non-gmail domain `b.c` under
`envAccept`: the verdict is `true` exactly because the probe answered
250. -/
theorem catchall_non_gmail_witness :
    is_gmail_domain "b.c" = false ∧
    ((emailv8.check_catch_all envAccept "b.c").1 = true ↔
      ∃ r rs, envAccept.dns "b.c" = DnsResult.ok (r :: rs) ∧
        envAccept.rcpt r.exchange "test@example.com" ("fake-email@" ++ "b.c") =
          some 250) :=
  ⟨by decide, (catchall_non_gmail "b.c" (by decide)).1 envAccept⟩

/-- C1 counterexample: in `emailv12.py`, with one MX record and every
session answering 250, the catch-all detector reports catch-all yet the
pipeline returns status `Valid` — and its trace shows the catch-all
probe ran while no probe of the real recipient ever did. -/
theorem pipeline_catchall_valid_counterexample :
    (emailv12.check_catch_all envAccept (domainOf "a@b.c")).1 = true ∧
    (emailv12.validate_email envAccept "a@b.c").1 = ("a@b.c", "Valid") ∧
    (emailv12.validate_email envAccept "a@b.c").2 =
      [Event.dnsQuery "b.c", Event.dnsQuery "b.c",
       Event.smtpProbe "mx.b.c" "test@example.com" "nonexistent@b.c"] := by
  refine ⟨by decide, by decide, by decide⟩

/-- C1 (amended): in `eemail.py` the stages run strictly in the order
syntax → DNS → SMTP connection → catch-all, short-circuiting with the
statuses `Invalid syntax`, `No MX records found`,
`Cannot connect to mail server`, `Domain has catch-all enabled`, and
`Email is valid` only when all four pass, the trace being the stage
traces concatenated in that order; `emailv12.py` deviates: it runs the
catch-all stage before the real-recipient probe and returns status
`Valid` when catch-all reports true, after exactly one SMTP session. -/
theorem pipeline_order_statuses (env : Env) (email : String) :
    ( check_syntax email = false →
      eemail.validate_email env email =
        (Except.ok (false, "Invalid syntax"), [])) ∧
    ( check_syntax email = true →
      (eemail.check_mail_server env (domainOf email)).1 = Except.ok false →
      eemail.validate_email env email =
        (Except.ok (false, "No MX records found"),
         (eemail.check_mail_server env (domainOf email)).2)) ∧
    ( check_syntax email = true →
      (eemail.check_mail_server env (domainOf email)).1 = Except.ok true →
      (eemail.check_connection env email).1 = false →
      eemail.validate_email env email =
        (Except.ok (false, "Cannot connect to mail server"),
         (eemail.check_mail_server env (domainOf email)).2 ++
           (eemail.check_connection env email).2)) ∧
    ( check_syntax email = true →
      (eemail.check_mail_server env (domainOf email)).1 = Except.ok true →
      (eemail.check_connection env email).1 = true →
      (eemail.check_catch_all env (domainOf email)).1 = true →
      eemail.validate_email env email =
        (Except.ok (false, "Domain has catch-all enabled"),
         (eemail.check_mail_server env (domainOf email)).2 ++
           (eemail.check_connection env email).2 ++
           (eemail.check_catch_all env (domainOf email)).2)) ∧
    ( check_syntax email = true →
      (eemail.check_mail_server env (domainOf email)).1 = Except.ok true →
      (eemail.check_connection env email).1 = true →
      (eemail.check_catch_all env (domainOf email)).1 = false →
      eemail.validate_email env email =
        (Except.ok (true, "Email is valid"),
         (eemail.check_mail_server env (domainOf email)).2 ++
           (eemail.check_connection env email).2 ++
           (eemail.check_catch_all env (domainOf email)).2)) ∧
    (∀ r rs, check_syntax email = true →
      env.dns (domainOf email) = DnsResult.ok (r :: rs) →
      env.rcpt r.exchange "test@example.com" ("nonexistent@" ++ domainOf email) =
        some 250 →
      (emailv12.validate_email env email).1 = (email, "Valid") ∧
      countSmtp (emailv12.validate_email env email).2 = 1) := by
  refine ⟨?_, ?_, ?_, ?_, ?_, ?_⟩
  · intro h
    simp [eemail.validate_email, h]
  · intro h hm
    unfold eemail.validate_email
    rw [h]
    rcases hcm : eemail.check_mail_server env (domainOf email) with ⟨msv, t1⟩
    rw [hcm] at hm
    simp only at hm
    rw [hm] at hcm
    simp [hcm]
  · intro h hm hc
    unfold eemail.validate_email
    rw [h]
    rcases hcm : eemail.check_mail_server env (domainOf email) with ⟨msv, t1⟩
    rcases hcc : eemail.check_connection env email with ⟨cv, t2⟩
    rw [hcm] at hm
    rw [hcc] at hc
    simp only at hm hc
    rw [hm] at hcm
    rw [hc] at hcc
    simp [hcm, hcc, hc]
  · intro h hm hc hca
    unfold eemail.validate_email
    rw [h]
    rcases hcm : eemail.check_mail_server env (domainOf email) with ⟨msv, t1⟩
    rcases hcc : eemail.check_connection env email with ⟨cv, t2⟩
    rcases hcca : eemail.check_catch_all env (domainOf email) with ⟨av, t3⟩
    rw [hcm] at hm
    rw [hcc] at hc
    rw [hcca] at hca
    simp only at hm hc hca
    rw [hm] at hcm
    rw [hc] at hcc
    rw [hca] at hcca
    simp [hcm, hcc, hcca, hc, hca]
  · intro h hm hc hca
    unfold eemail.validate_email
    rw [h]
    rcases hcm : eemail.check_mail_server env (domainOf email) with ⟨msv, t1⟩
    rcases hcc : eemail.check_connection env email with ⟨cv, t2⟩
    rcases hcca : eemail.check_catch_all env (domainOf email) with ⟨av, t3⟩
    rw [hcm] at hm
    rw [hcc] at hc
    rw [hcca] at hca
    simp only at hm hc hca
    rw [hm] at hcm
    rw [hc] at hcc
    rw [hca] at hcca
    simp [hcm, hcc, hcca, hc, hca]
  · intro r rs h hd hrc
    unfold emailv12.validate_email emailv12.check_mail_server
      emailv12.check_catch_all
    rw [h]
    simp [hd, hrc, countSmtp]

/-- Witness for `pipeline_order_statuses`: under `envAccept` the address
`a@b.c` passes syntax, DNS and connection, the catch-all stage fires,
and `eemail.py` reports `Domain has catch-all enabled`. -/
theorem pipeline_order_statuses_witness :
    check_syntax "a@b.c" = true ∧
    (eemail.check_mail_server envAccept (domainOf "a@b.c")).1 =
      Except.ok true ∧
    (eemail.check_connection envAccept "a@b.c").1 = true ∧
    (eemail.check_catch_all envAccept (domainOf "a@b.c")).1 = true ∧
    eemail.validate_email envAccept "a@b.c" =
      (Except.ok (false, "Domain has catch-all enabled"),
       (eemail.check_mail_server envAccept (domainOf "a@b.c")).2 ++
         (eemail.check_connection envAccept "a@b.c").2 ++
         (eemail.check_catch_all envAccept (domainOf "a@b.c")).2) :=
  ⟨rfl, rfl, rfl, rfl,
   (pipeline_order_statuses envAccept "a@b.c").2.2.2.1 rfl rfl rfl rfl⟩

/-- C5 counterexample: in `emailv13.py` an authoritative negative answer
(NXDOMAIN on every attempt) is NOT returned immediately — the decorated
`check_mail_server` performs three DNS queries with backoff sleeps of
1 and 2 seconds before giving up. -/
theorem dns_authoritative_retried_counterexample :
    emailv13.check_mail_server renvNx "nx.test" =
      (false, [Event.dnsQuery "nx.test", Event.sleep 1,
               Event.dnsQuery "nx.test", Event.sleep 2,
               Event.dnsQuery "nx.test"]) ∧
    countDns (emailv13.check_mail_server renvNx "nx.test").2 = 3 := by
  refine ⟨by decide, by decide⟩

/-- C5 (amended): `eeemail 2.py`'s `check_mail_server` returns `False`
immediately, after a single query and with no sleep, on an authoritative
negative, and retries timeouts up to 3 attempts with NO backoff delay
before returning `False`; `emailv13.py`'s `check_mail_server` instead
retries every failed attempt — authoritative negatives included — up to
3 attempts with exponential backoff `2 ^ attempt` seconds between
attempts, returning `False` after exhausting them. -/
theorem dns_retry_behaviour :
    (∀ (renv : REnv) (domain : String),
      renv.dns 0 domain = DnsResult.nxdomain ∨
        renv.dns 0 domain = DnsResult.noAnswer →
      part000.check_mail_server renv domain =
        (Except.ok false, [Event.dnsQuery domain])) ∧
    (∀ (renv : REnv) (domain : String),
      (∀ k, renv.dns k domain = DnsResult.timeout) →
      part000.check_mail_server renv domain =
        (Except.ok false,
         [Event.dnsQuery domain, Event.dnsQuery domain, Event.dnsQuery domain])) ∧
    (∀ (renv : REnv) (domain : String),
      (∀ k, renv.dns k domain = DnsResult.nxdomain) →
      emailv13.check_mail_server renv domain =
        (false, [Event.dnsQuery domain, Event.sleep 1, Event.dnsQuery domain,
                 Event.sleep 2, Event.dnsQuery domain])) := by
  refine ⟨?_, ?_, ?_⟩
  · rintro renv domain (h0 | h0) <;>
      simp [part000.check_mail_server, part000.check_mail_server_go, h0]
  · intro renv domain h
    simp [part000.check_mail_server, part000.check_mail_server_go,
      h 0, h 1, h 2]
  · intro renv domain h
    have hf : ∀ a, emailv13.check_mail_server_once renv domain a =
        (false, [Event.dnsQuery domain]) := by
      intro a
      simp [emailv13.check_mail_server_once, h a]
    simp [emailv13.check_mail_server, emailv13.retry_connection,
      emailv13.retryLoop, hf]

/-- Witness for `dns_retry_behaviour`: under the all-NXDOMAIN environment
both cited resolvers give up with `False`, `eeemail 2.py` after one
query and `emailv13.py` after three. -/
theorem dns_retry_behaviour_witness :
    (renvNx.dns 0 "nx.test" = DnsResult.nxdomain ∨
      renvNx.dns 0 "nx.test" = DnsResult.noAnswer) ∧
    (∀ k, renvNx.dns k "nx.test" = DnsResult.nxdomain) ∧
    part000.check_mail_server renvNx "nx.test" =
      (Except.ok false, [Event.dnsQuery "nx.test"]) ∧
    emailv13.check_mail_server renvNx "nx.test" =
      (false, [Event.dnsQuery "nx.test", Event.sleep 1,
               Event.dnsQuery "nx.test", Event.sleep 2,
               Event.dnsQuery "nx.test"]) :=
  ⟨Or.inl rfl, fun _ => rfl,
   dns_retry_behaviour.1 renvNx "nx.test" (Or.inl rfl),
   dns_retry_behaviour.2.2 renvNx "nx.test" fun _ => rfl⟩

theorem part000_catchall_smtp_le_one (renv : REnv) (domain : String) :
    ∀ rem attempt,
      countSmtp (part000.check_catch_all_go renv domain attempt rem).2 ≤ 1 := by
  intro rem
  induction rem with
  | zero =>
      intro a
      simp [part000.check_catch_all_go, countSmtp]
  | succ n ih =>
      intro a
      unfold part000.check_catch_all_go
      cases hd : renv.dns a domain with
      | ok rs =>
          cases rs with
          | nil => simp [countSmtp]
          | cons r rest =>
              cases hgm : is_gmail_domain domain with
              | true =>
                  simp only [hgm, if_true]
                  cases renv.rcpt a r.exchange "test@gmail.com"
                      "fake-email@gmail.com" <;> simp [countSmtp]
              | false =>
                  simp only [hgm, Bool.false_eq_true, if_false]
                  cases renv.rcpt a r.exchange "test@example.com"
                      ("fake-email@" ++ domain) <;> simp [countSmtp]
      | noAnswer => simp [countSmtp]
      | nxdomain => simp [countSmtp]
      | err => simp [countSmtp]
      | timeout =>
          simp only [countSmtp]
          simpa [countSmtp] using ih (a + 1)

/-- C6 counterexample: in `emailv13.py` a failed SMTP probe IS retried
within a single address's pipeline run — with DNS succeeding and every
probe session failing, `validate_email` opens three SMTP sessions. -/
theorem smtp_retried_counterexample :
    countSmtp (emailv13.validate_email renvSmtpFail "a@b.c").2 = 3 ∧
    countSmtp (emailv13.check_connection renvSmtpFail "a@b.c").2 = 3 := by
  refine ⟨by decide, by decide⟩

/-- C6 (amended): in `eeemail 2.py` SMTP is never retried — its
`check_catch_all` opens at most one SMTP session per call, however the
DNS attempts turn out — but in `emailv13.py` the `retry_connection`
decorator retries the whole SMTP probe: with DNS succeeding and every
probe failing, `check_connection` opens exactly three SMTP sessions in
one run. -/
theorem smtp_retry_behaviour :
    (∀ (renv : REnv) (domain : String),
      countSmtp (part000.check_catch_all renv domain).2 ≤ 1) ∧
    (∀ (renv : REnv) (email : String) (r : MXRecord) (rs : List MXRecord),
      (∀ k, renv.dns k (domainOf email) = DnsResult.ok (r :: rs)) →
      (∀ k, renv.rcpt k r.exchange "your-email@example.com" email = none) →
      countSmtp (emailv13.check_connection renv email).2 = 3) := by
  constructor
  · intro renv domain
    exact part000_catchall_smtp_le_one renv domain 3 0
  · intro renv email r rs hd hrc
    have hf : ∀ a, emailv13.check_connection_once renv email a =
        (false, [Event.dnsQuery (domainOf email),
                 Event.smtpProbe r.exchange "your-email@example.com" email]) := by
      intro a
      unfold emailv13.check_connection_once
      simp [hd a, hrc a]
    simp [emailv13.check_connection, emailv13.retry_connection,
      emailv13.retryLoop, hf, countSmtp]

/-- Witness for `smtp_retry_behaviour`: the DNS-succeeds/probe-fails
environment satisfies both hypotheses and yields three SMTP sessions. -/
theorem smtp_retry_behaviour_witness :
    (∀ k, renvSmtpFail.dns k (domainOf "a@b.c") =
      DnsResult.ok [⟨"mx.b.c", 10⟩]) ∧
    (∀ k, renvSmtpFail.rcpt k "mx.b.c" "your-email@example.com" "a@b.c" =
      none) ∧
    countSmtp (emailv13.check_connection renvSmtpFail "a@b.c").2 = 3 :=
  ⟨fun _ => rfl, fun _ => rfl,
   smtp_retry_behaviour.2 renvSmtpFail "a@b.c" ⟨"mx.b.c", 10⟩ []
     (fun _ => rfl) (fun _ => rfl)⟩

/-- C7 counterexample: the scripts connect to `mx_records[0]` without any
sorting — with a resolver answer that is not sorted by preference,
`emailv12.py`'s probe targets `hostB` (preference 20), not the
lowest-preference exchanger `hostA` (preference 10). -/
theorem mx_sorted_counterexample :
    envUnsorted.dns (domainOf "a@b.c") =
      DnsResult.ok [⟨"hostB", 20⟩, ⟨"hostA", 10⟩] ∧
    sortedByPref [(⟨"hostB", 20⟩ : MXRecord), ⟨"hostA", 10⟩] = false ∧
    (emailv12.check_connection envUnsorted "a@b.c").2 =
      [Event.dnsQuery "b.c", Event.smtpProbe "hostB" "test@example.com" "a@b.c"] ∧
    (emailv12.check_connection envUnsorted "a@b.c").2 ≠
      [Event.dnsQuery "b.c", Event.smtpProbe "hostA" "test@example.com" "a@b.c"] := by
  refine ⟨rfl, by decide, by decide, by decide⟩

/-- C7 (amended): the probe stages use only the FIRST entry of the MX
record set exactly as the resolver returned it; no sorting by preference
is performed, so the probed host is the lowest-preference exchanger only
if the resolver's answer is already sorted. -/
theorem mx_head_used (env : Env) (email : String) (r : MXRecord)
    (rs : List MXRecord)
    (hdns : env.dns (domainOf email) = DnsResult.ok (r :: rs)) :
    (emailv12.check_connection env email).2 =
      [Event.dnsQuery (domainOf email),
       Event.smtpProbe r.exchange "test@example.com" email] ∧
    (eemail.check_connection env email).2 =
      [Event.dnsQuery (domainOf email), Event.smtpHelo r.exchange] := by
  unfold emailv12.check_connection eemail.check_connection
  constructor <;> simp [hdns]

/-- Witness for `mx_head_used` under the unsorted answer: the session
targets `hostB`, the head of the returned set. -/
theorem mx_head_used_witness :
    envUnsorted.dns (domainOf "a@b.c") =
      DnsResult.ok [⟨"hostB", 20⟩, ⟨"hostA", 10⟩] ∧
    ((emailv12.check_connection envUnsorted "a@b.c").2 =
      [Event.dnsQuery (domainOf "a@b.c"),
       Event.smtpProbe "hostB" "test@example.com" "a@b.c"] ∧
     (eemail.check_connection envUnsorted "a@b.c").2 =
      [Event.dnsQuery (domainOf "a@b.c"), Event.smtpHelo "hostB"]) :=
  ⟨rfl, mx_head_used envUnsorted "a@b.c" ⟨"hostB", 20⟩ [⟨"hostA", 10⟩] rfl⟩

/-- C8: for every input list and every completion order of the
concurrently dispatched per-address futures (any worker-pool size
produces some completion order), the batch runners of `emailv12.py` and
`emailv13.py` return exactly one outcome per input address — same
length, no duplicates and no omissions (a permutation of the per-address
outcomes), though not necessarily in input order. -/
theorem batch_outcomes (env : Env) (renv : REnv) (emails : List String)
    (ord12 ord13 : List (Fin emails.length))
    (h12 : ord12.Perm (List.finRange emails.length))
    (h13 : ord13.Perm (List.finRange emails.length)) :
    (emailv12.validate_emails env emails ord12).length = emails.length ∧
    (emailv12.validate_emails env emails ord12).Perm
      (emails.map fun e => (emailv12.validate_email env e).1) ∧
    (emailv13.validate_emails renv emails ord13).length = emails.length ∧
    (emailv13.validate_emails renv emails ord13).Perm
      (emails.map fun e => (emailv13.validate_email renv e).1) := by
  have key12 : (emailv12.validate_emails env emails ord12).Perm
      (emails.map fun e => (emailv12.validate_email env e).1) := by
    unfold emailv12.validate_emails
    conv_rhs => rw [← List.finRange_map_get emails]
    rw [List.map_map]
    exact h12.map _
  have key13 : (emailv13.validate_emails renv emails ord13).Perm
      (emails.map fun e => (emailv13.validate_email renv e).1) := by
    unfold emailv13.validate_emails
    conv_rhs => rw [← List.finRange_map_get emails]
    rw [List.map_map]
    exact h13.map _
  exact ⟨key12.length_eq.trans (List.length_map _ _), key12,
    key13.length_eq.trans (List.length_map _ _), key13⟩

/-- Witness for `batch_outcomes`: a two-address batch completed in
reversed order still yields exactly one outcome per address. -/
theorem batch_outcomes_witness :
    ordW.Perm (List.finRange emailsW.length) ∧
    ((emailv12.validate_emails envAccept emailsW ordW).length =
       emailsW.length ∧
     (emailv12.validate_emails envAccept emailsW ordW).Perm
       (emailsW.map fun e => (emailv12.validate_email envAccept e).1) ∧
     (emailv13.validate_emails renvNx emailsW ordW).length =
       emailsW.length ∧
     (emailv13.validate_emails renvNx emailsW ordW).Perm
       (emailsW.map fun e => (emailv13.validate_email renvNx e).1)) :=
  ⟨by decide,
   batch_outcomes envAccept renvNx emailsW ordW ordW (by decide) (by decide)⟩
